import Mathlib

/-!
Shallow embedding of the libvirt Firecracker driver
(`src/fc/fc_monitor.c`, `src/fc/fc_domain.c`, `src/fc/fc_driver.c`).

Modelling conventions:
* C `int` return codes become `Int` (`0` success, `-1` failure).
* The local HTTP-over-unix-socket channel is modelled by an environment
  `MonEnv`: `code n` is the HTTP response code the remote returns to the
  n-th request issued on this trace (a negative value models
  `curl_easy_perform`/`curl_easy_getinfo` failure, i.e. an unreachable or
  broken channel, in which case `virFCMonitorCurlExec` reports an error and
  returns -1); `statusBody n` is the parsed body of the n-th request when
  it is the status GET (parsing by `virJSONValueFromString` is external
  library code, so the body is modelled post-parse: either `malformed` or
  a field list).
* Every `virReportError` call site is recorded in the trace as a distinct
  `VirErr` constructor, so theorems can talk about which error a path
  reports.
* Side effects other than HTTP requests (process launch/abort, directory
  and file manipulation) are recorded as `SysEv` events in the trace.
* C strings that the code only ever passes through are modelled as
  `String` (a NULL `os.cmdline` behaves as "" through `g_string_new`);
  `os.root` is modelled as `Option String` because `getRootFSDiskDevice`
  branches on its NULL-ness.
-/

/-- A JSON atom appended by the `virJSONValueObjectAppend*` calls. -/
inductive JVal
  | s (v : String)
  | n (v : Int)
  | b (v : Bool)
deriving DecidableEq, Repr

/-- One HTTP request as assembled by `virFCJsonActionExec` /
`virFCMonitorGetStatus`: the custom request verb, the full URL as the
source computes it, and the JSON body fields in append order. -/
structure HttpRequest where
  verb : String
  url : String
  body : List (String × JVal)
deriving DecidableEq, Repr

/-- One `virReportError` call site in the modelled code. -/
inductive VirErr
  | curlPerformFailed      -- virFCMonitorCurlExec: curl perform/getinfo failed
  | parseFailedJson        -- fcInstanceInfoToDomainState: response not JSON
  | parseFailedStateKey    -- fcInstanceInfoToDomainState: no "state" string
  | unknownStateValue      -- fcInstanceInfoToDomainState: unrecognized state
  | invalidStateArg        -- virFCMonitorChangeState: bad target state
  | apiKernelFailed        -- fcConfigAndStartVM: boot-source call failed
  | rootDiskMissingStart   -- fcConfigAndStartVM: no disk matches os.root
  | apiDiskFailed          -- fcConfigAndStartVM: drive call failed
  | apiStartFailed         -- fcConfigAndStartVM: InstanceStart call failed
  | apiShutdownFailed      -- fcStopVM: SendCtrlAltDel call failed
  | failedRefresh          -- driver: "Failed to refresh the state of vm"
  | notRunning             -- driver: "Domain is not in running state"
  | notPaused              -- fcDomainResume: "Domain is not in paused state"
  | alreadyRunning         -- fcDomainCreateWithFlags: domain already active
  | dirRecreateFailed      -- fcDomainCreateWithFlags: fcRecreateVMDir failed
  | failedVMStart          -- fcDomainCreateWithFlags: fcConfigAndStartVM failed
  | openErrLogFailed       -- fcStartVMProcess: open() of fc_err.log failed
  | openStdLogFailed       -- fcStartVMProcess: open() of fc_std.log failed
  | openptyFailed          -- fcStartVMProcess: openpty() failed
  | runAsyncFailed         -- fcStartVMProcess: virCommandRunAsync failed
  | socketNotFound         -- fcStartVMProcess: fcWaitUntilExists failed
  | permFixFailed          -- fcStartVMProcess: virFileUpdatePerm failed
  | apiSuspendFailed       -- fcDomainSuspend: Paused PATCH failed
  | apiResumeFailed        -- fcDomainResume: Resumed PATCH failed
  | domainNotActive        -- virDomainObjCheckActive failed
  | noConsoleDevice        -- fcDomainOpenConsole: def has no console device
  | waitReapFailed         -- fcDomainShutdownFlags: virCommandWait failed
  | parseBadName           -- post-parse: name contains a newline
  | parseNoEmulator        -- post-parse: no firecracker binary found
  | parseNoKernel          -- post-parse: kernel path empty/whitespace
  | parseNoRoot            -- post-parse: os.root missing/whitespace
  | parseParallelDev       -- post-parse: parallel devices unsupported
  | parseConsoleDev        -- post-parse: console devices unsupported
  | parseChannelDev        -- post-parse: channel devices unsupported
  | parseManySerials       -- post-parse: more than one serial device
  | parseSerialKind        -- post-parse: chr device is not a serial
  | parseSerialNotPty      -- post-parse: serial source type is not pty
  | parseRootDiskMissing   -- post-parse: no disk with target os.root
deriving DecidableEq, Repr

/-- Non-HTTP side effects of the driver, in issue order. -/
inductive SysEv
  | launched (pid : Int)       -- virCommandRunAsync spawned the VMM child
  | abortProc (pid : Int)      -- virCommandAbort on a launched command
  | deleteTree (path : String) -- virFileDeleteTree on the vm directory
  | makeDir (path : String)    -- g_mkdir_with_parents on the vm directory
  | removeFile (path : String) -- g_remove of the control socket
  | reapProc                   -- virCommandWait on the child
  | openPtyStream (path : String) -- virFDStreamOpenPTY on the console pty
deriving DecidableEq, Repr

/-- Everything observable that an operation has done so far. -/
structure Trace where
  reqs : List HttpRequest
  errs : List VirErr
  evs : List SysEv
deriving DecidableEq, Repr

def Trace.empty : Trace := ⟨[], [], []⟩

def Trace.req (t : Trace) (r : HttpRequest) : Trace :=
  { t with reqs := t.reqs ++ [r] }

def Trace.err (t : Trace) (e : VirErr) : Trace :=
  { t with errs := t.errs ++ [e] }

def Trace.ev (t : Trace) (e : SysEv) : Trace :=
  { t with evs := t.evs ++ [e] }

/-- The body of the instance-status GET as it comes out of
`virJSONValueFromString`: either unparseable or a parsed object. -/
inductive StatusBody
  | malformed
  | fields (fs : List (String × JVal))
deriving DecidableEq, Repr

/-- The remote VMM side of the channel: response code and (for the status
query) response body for the n-th request of the trace.  A negative code
models a transport-level failure of `curl_easy_perform`. -/
structure MonEnv where
  code : Nat → Int
  statusBody : Nat → StatusBody

/-- libvirt's domain states used by this driver. -/
inductive VirDomainState
  | nostate
  | running
  | paused
  | shutoff
deriving DecidableEq, Repr

namespace FC

/-- `URL_ROOT` from fc_monitor.h. -/
def URL_ROOT : String := "http://localhost"

/-- fc_monitor.c `isSuccessCode`: firecracker returns 200 or 204 on
success. -/
def isSuccessCode (response_code : Int) : Bool :=
  response_code == 200 || response_code == 204

/-- fc_monitor.c `virFCMonitorCurlExec`: perform the request; on transport
failure report an error and return -1, otherwise return the response
code.  The request itself is recorded on the trace. -/
def virFCMonitorCurlExec (env : MonEnv) (t : Trace) (r : HttpRequest) :
    Int × Trace :=
  let c := env.code t.reqs.length
  if c < 0 then (-1, (t.req r).err .curlPerformFailed)
  else (c, t.req r)

/-- fc_monitor.c `virFCJsonActionExec`: build the URL from `URL_ROOT` and
the endpoint, attach the JSON body and execute. -/
def virFCJsonActionExec (env : MonEnv) (t : Trace)
    (url_endpoint http_action : String) (body : List (String × JVal)) :
    Int × Trace :=
  virFCMonitorCurlExec env t
    { verb := http_action
      url := URL_ROOT ++ "/" ++ url_endpoint
      body := body }

/-- fc_monitor.c `virFCMonitorSetConfig` (PUT machine-config).  `memKiB`
is `virDomainDefGetMemoryInitial` (libvirt stores KiB); the source divides
by 1024 to obtain MiB.  NOTE: this function is defined in fc_monitor.c but
is declared in no header and called from nowhere in the repository. -/
def virFCMonitorSetConfig (env : MonEnv) (t : Trace)
    (hyper_threading : Bool) (memKiB maxvcpus : Nat) : Int × Trace :=
  let p := virFCJsonActionExec env t "machine-config" "PUT"
    [("ht_enabled", .b hyper_threading),
     ("mem_size_mib", .n (memKiB / 1024 : Nat)),
     ("vcpu_count", .n (maxvcpus : Nat))]
  (if isSuccessCode p.1 then 0 else -1, p.2)

/-- fc_monitor.c `virFCMonitorSetKernel` (PUT boot-source). -/
def virFCMonitorSetKernel (env : MonEnv) (t : Trace)
    (kernel_path kernel_cmdline : String) : Int × Trace :=
  let p := virFCJsonActionExec env t "boot-source" "PUT"
    [("kernel_image_path", .s kernel_path),
     ("boot_args", .s kernel_cmdline)]
  (if isSuccessCode p.1 then 0 else -1, p.2)

/-- fc_monitor.c `virFCMonitorSetDisk` (PUT /drives/{id}; the source
builds the endpoint as "/drives/" ++ drive_id, with a leading slash). -/
def virFCMonitorSetDisk (env : MonEnv) (t : Trace)
    (drive_id disk_path_host : String)
    (is_root_device is_read_only : Bool) : Int × Trace :=
  let p := virFCJsonActionExec env t ("/drives/" ++ drive_id) "PUT"
    [("drive_id", .s drive_id),
     ("path_on_host", .s disk_path_host),
     ("is_root_device", .b is_root_device),
     ("is_read_only", .b is_read_only)]
  (if isSuccessCode p.1 then 0 else -1, p.2)

/-- fc_monitor.c `virFCMonitorSetNetwork` (PUT /network-interfaces/{id}).
NOTE: like `virFCMonitorSetConfig`, defined but never called anywhere in
the repository. -/
def virFCMonitorSetNetwork (env : MonEnv) (t : Trace)
    (iface_id guest_mac host_dev_name : String)
    (allow_mmds_requests : Bool) : Int × Trace :=
  let p := virFCJsonActionExec env t ("/network-interfaces/" ++ iface_id)
    "PUT"
    [("allow_mmds_requests", .b allow_mmds_requests),
     ("guest_mac", .s guest_mac),
     ("host_dev_name", .s host_dev_name),
     ("iface_id", .s iface_id)]
  (if isSuccessCode p.1 then 0 else -1, p.2)

/-- fc_monitor.c `virFCMonitorStartVM` (PUT actions, InstanceStart). -/
def virFCMonitorStartVM (env : MonEnv) (t : Trace) : Int × Trace :=
  let p := virFCJsonActionExec env t "actions" "PUT"
    [("action_type", .s "InstanceStart")]
  (if isSuccessCode p.1 then 0 else -1, p.2)

/-- fc_monitor.c `virFCMonitorShutdownVM` (PUT actions, SendCtrlAltDel). -/
def virFCMonitorShutdownVM (env : MonEnv) (t : Trace) : Int × Trace :=
  let p := virFCJsonActionExec env t "actions" "PUT"
    [("action_type", .s "SendCtrlAltDel")]
  (if isSuccessCode p.1 then 0 else -1, p.2)

/-- fc_monitor.c `virFCMonitorChangeState` (PATCH vm): the target state is
checked locally against exactly "Paused" / "Resumed" before any request
goes out. -/
def virFCMonitorChangeState (env : MonEnv) (t : Trace) (state : String) :
    Int × Trace :=
  if state ≠ "Paused" ∧ state ≠ "Resumed" then
    (-1, t.err .invalidStateArg)
  else
    let p := virFCJsonActionExec env t "vm" "PATCH" [("state", .s state)]
    (if isSuccessCode p.1 then 0 else -1, p.2)

/-- `virJSONValueObjectGetString` on the parsed status body: the value of
the first binding of the key, provided it is a string. -/
def getStringField (fs : List (String × JVal)) (key : String) :
    Option String :=
  match fs.find? (fun kv => kv.1 == key) with
  | some (_, .s v) => some v
  | _ => none

/-- fc_monitor.c `fcInstanceInfoToDomainState`: map the parsed status
response to a domain state, together with the errors the function
reports. -/
def fcInstanceInfoToDomainState (b : StatusBody) :
    VirDomainState × List VirErr :=
  match b with
  | .malformed => (.nostate, [.parseFailedJson])
  | .fields fs =>
    match getStringField fs "state" with
    | none => (.nostate, [.parseFailedStateKey])
    | some st =>
      if st = "Running" then (.running, [])
      else if st = "Paused" then (.paused, [])
      else if st = "Not started" then (.shutoff, [])
      else (.nostate, [.unknownStateValue])

/-- fc_monitor.c `virFCMonitorGetStatus`: GET on `URL_ROOT ++ "/"`; on a
non-success response code the function returns NOSTATE via `goto cleanup`
(reporting nothing itself); on success it parses the body. -/
def virFCMonitorGetStatus (env : MonEnv) (t : Trace) :
    VirDomainState × Trace :=
  let idx := t.reqs.length
  let p := virFCMonitorCurlExec env t
    { verb := "GET", url := URL_ROOT ++ "/", body := [] }
  if ¬ isSuccessCode p.1 then (.nostate, p.2)
  else
    let r := fcInstanceInfoToDomainState (env.statusBody idx)
    (r.1, { p.2 with errs := p.2.errs ++ r.2 })

/-! ## Guest definition (the parts of `virDomainDef` this driver reads) -/

/-- One disk device: `dst` is `<target dev=...>`, `srcPath` is
`src->path`. -/
structure DiskDef where
  dst : String
  srcPath : String
deriving DecidableEq, Repr

/-- `deviceType` of a character device. -/
inductive ChrDeviceType
  | serial
  | console
  | parallel
  | channel
deriving DecidableEq, Repr

/-- `source->type` of a character device. -/
inductive ChrType
  | pty
  | other
deriving DecidableEq, Repr

/-- One entry of `def->serials`. -/
structure ChrDef where
  deviceType : ChrDeviceType
  sourceType : ChrType
  targetPort : Int
deriving DecidableEq, Repr

/-- The slice of `virDomainDef` that fc_domain.c / fc_driver.c read.
`root` is `Option String` because `getRootFSDiskDevice` branches on its
NULL-ness; `nconsoles`/`nparallels`/`nchannels` are counts because the
code only compares them with 0. -/
structure DomainDef where
  name : String
  emulator : Option String
  kernel : String
  cmdline : String
  root : Option String
  memKiB : Nat
  maxvcpus : Nat
  disks : List DiskDef
  serials : List ChrDef
  nconsoles : Nat
  nparallels : Nat
  nchannels : Nat
deriving DecidableEq, Repr

/-- libvirt `virStringIsEmpty` applied to a string that cannot be NULL:
true when it contains only whitespace (over the character list, so that
it evaluates). -/
def virStringIsEmptyStr (s : String) : Bool :=
  s.data.all fun c => c == ' ' || c == '\t' || c == '\n' || c == '\r'

/-- libvirt `virStringIsEmpty`: NULL or whitespace-only. -/
def virStringIsEmpty : Option String → Bool
  | none => true
  | some s => virStringIsEmptyStr s

/-- fc_domain.c `getRootFSDiskDevice`: NULL `os.root` yields no device;
otherwise the first disk whose `<target dev>` equals `os.root`. -/
def getRootFSDiskDevice (d : DomainDef) : Option DiskDef :=
  match d.root with
  | none => none
  | some r => d.disks.find? fun disk => disk.dst == r

/-- The boot/device checks of fc_domain.c `virFCDomainDefPostParseBasic`
after the emulator lookup, operating on the (possibly emulator-updated)
definition. -/
def virFCDomainDefPostParseChecks (d : DomainDef) :
    Except VirErr DomainDef :=
  if virStringIsEmptyStr d.kernel then .error .parseNoKernel
  else if virStringIsEmpty d.root then .error .parseNoRoot
  else if d.nparallels > 0 then .error .parseParallelDev
  else if d.nconsoles > 0 then .error .parseConsoleDev
  else if d.nchannels > 0 then .error .parseChannelDev
  else if d.serials.length > 1 then .error .parseManySerials
  else
    match d.serials with
    | s :: _ =>
      if s.deviceType ≠ .serial then .error .parseSerialKind
      else if s.sourceType ≠ .pty then .error .parseSerialNotPty
      else if (getRootFSDiskDevice d).isNone then
        .error .parseRootDiskMissing
      else .ok d
    | [] =>
      if (getRootFSDiskDevice d).isNone then
        .error .parseRootDiskMissing
      else .ok d

/-- fc_domain.c `virFCDomainDefPostParseBasic`: the post-parse validation
callback.  `findProgram` models `g_find_program_in_path(FC_CMD)`
(external).  Returns the possibly-updated definition, or the error the
failing check reports. -/
def virFCDomainDefPostParseBasic (findProgram : Option String)
    (d : DomainDef) : Except VirErr DomainDef :=
  if d.name.data.any (fun c => c == '\n') then .error .parseBadName
  else
    match d.emulator with
    | some _ => virFCDomainDefPostParseChecks d
    | none =>
      match findProgram with
      | some p => virFCDomainDefPostParseChecks { d with emulator := some p }
      | none => .error .parseNoEmulator

/-! ## Guest runtime object -/

/-- The slice of `virDomainObj` + `virFCDomainObjPrivate` the driver
mutates: lifecycle state, `def->id` (-1 = inactive sentinel), the private
paths, and the supervised child (as the pid held by the `virCommand`). -/
structure VMCore where
  defn : DomainDef
  state : VirDomainState
  id : Int
  persistent : Bool
  vmDir : Option String
  socketpath : Option String
  consolePty : Option String
  fcProcess : Option Int
deriving DecidableEq, Repr

/-- The socket path string handed to the monitor calls (NULL behaves as
an unreachable channel; the channel outcome lives in `MonEnv` anyway). -/
def VMCore.sock (vm : VMCore) : String := vm.socketpath.getD ""

/-- Host-side (non-HTTP) outcomes of one start/stop attempt: which
external steps succeed.  `mon` is the channel environment. -/
structure DrvEnv where
  mon : MonEnv
  recreateDirOk : Bool    -- fcRecreateVMDir (delete + mkdir)
  openErrLogOk : Bool     -- open() of fc_err.log
  openStdLogOk : Bool     -- open() of fc_std.log
  openptyOk : Bool        -- openpty()
  ptyPath : String        -- pty device path filled in by openpty
  runAsyncOk : Bool       -- virCommandRunAsync
  spawnedPid : Int        -- pid of the spawned firecracker process
  socketAppears : Bool    -- fcWaitUntilExists on the control socket
  updatePermOk : Bool     -- virFileUpdatePerm on the control socket
  waitOk : Bool           -- virCommandWait (reap) on graceful shutdown
  openPtyStreamOk : Bool  -- virFDStreamOpenPTY in fcDomainOpenConsole

/-! ## fc_domain.c lifecycle helpers -/

/-- fc_domain.c `fcPopulatePrivateData`: derive the per-guest directory
and control-socket path from the driver state dir and the guest name. -/
def fcPopulatePrivateData (stateDir : String) (vm : VMCore) : VMCore :=
  let dir := stateDir ++ "/" ++ vm.defn.name
  { vm with
    vmDir := some dir
    socketpath := some (dir ++ "/firecracker-lv.socket") }

/-- fc_domain.c `fcAddAdditionalCmdlineArgs`: append " console=ttyS<port>"
to the kernel command line exactly when a serial device is configured. -/
def fcAddAdditionalCmdlineArgs (d : DomainDef) : String :=
  match d.serials with
  | [] => d.cmdline
  | s :: _ => d.cmdline ++ " console=ttyS" ++ toString s.targetPort

/-- fc_domain.c `fcUpdateState`: always overwrite the cached state with
whatever `virFCMonitorGetStatus` returned, then fail iff that was
NOSTATE. -/
def fcUpdateState (env : MonEnv) (t : Trace) (vm : VMCore) :
    Int × VMCore × Trace :=
  let p := virFCMonitorGetStatus env t
  let vm' := { vm with state := p.1 }
  (if p.1 = .nostate then -1 else 0, vm', p.2)

/-- fc_domain.c `fcStartVMProcess`: open log files, allocate the console
pty when a serial device exists, spawn the firecracker child, wait for
its control socket, and relax the socket permissions (best-effort).  On
any failure the error label aborts the command (a no-op unless it was
launched), clears `def->id` and the process handle. -/
def fcStartVMProcess (denv : DrvEnv) (t : Trace) (vm : VMCore) :
    Int × VMCore × Trace :=
  let fail (e : VirErr) (launched : Bool) (pty : Option String)
      (t : Trace) : Int × VMCore × Trace :=
    let t := t.err e
    let t := if launched then t.ev (.abortProc denv.spawnedPid) else t
    (-1, { vm with id := -1, consolePty := pty, fcProcess := none }, t)
  if ¬ denv.openErrLogOk then
    fail .openErrLogFailed false vm.consolePty t
  else
    let openSerial := decide (vm.defn.serials.length > 0)
    if openSerial ∧ ¬ denv.openptyOk then
      -- console_pty_path holds the unfilled g_strnfill buffer here
      fail .openptyFailed false (some "") t
    else
      let pty : Option String :=
        if openSerial then some denv.ptyPath else none
      if ¬ openSerial ∧ ¬ denv.openStdLogOk then
        fail .openStdLogFailed false pty t
      else if ¬ denv.runAsyncOk then
        fail .runAsyncFailed false pty t
      else
        let t := t.ev (.launched denv.spawnedPid)
        if ¬ denv.socketAppears then
          fail .socketNotFound true pty t
        else
          let t := if ¬ denv.updatePermOk then t.err .permFixFailed else t
          (0, { vm with
                  id := denv.spawnedPid
                  consolePty := pty
                  fcProcess := some denv.spawnedPid }, t)

/-- fc_domain.c `fcConfigAndStartVM`: boot-source with the computed
command line, then the root drive, then the InstanceStart action — and
nothing else. -/
def fcConfigAndStartVM (env : MonEnv) (t : Trace) (vm : VMCore) :
    Int × Trace :=
  let computed_cmdline := fcAddAdditionalCmdlineArgs vm.defn
  let p1 := virFCMonitorSetKernel env t vm.defn.kernel computed_cmdline
  if p1.1 < 0 then (-1, p1.2.err .apiKernelFailed)
  else
    match getRootFSDiskDevice vm.defn with
    | none => (-1, p1.2.err .rootDiskMissingStart)
    | some root_device =>
      let p2 := virFCMonitorSetDisk env p1.2 "rootfs" root_device.srcPath
        true false
      if p2.1 < 0 then (-1, p2.2.err .apiDiskFailed)
      else
        let p3 := virFCMonitorStartVM env p2.2
        if p3.1 < 0 then (-1, p3.2.err .apiStartFailed)
        else (0, p3.2)

/-- fc_domain.c `fcStopVM`: send SendCtrlAltDel; on success mark SHUTOFF
and clear `def->id`. -/
def fcStopVM (env : MonEnv) (t : Trace) (vm : VMCore) :
    Int × VMCore × Trace :=
  let p := virFCMonitorShutdownVM env t
  if p.1 < 0 then (-1, vm, p.2.err .apiShutdownFailed)
  else (0, { vm with state := .shutoff, id := -1 }, p.2)

/-! ## fc_driver.c lifecycle operations.
Domain lookup and the ACL checks are external framework collaborators and
are modelled as succeeding; each operation below starts after them. -/

/-- The `error:` label of fc_driver.c `fcDomainCreateWithFlags`: clear
`def->id`, abort the supervised command (`virCommandAbort` is a no-op on
NULL / never-launched commands) and best-effort delete the vm directory
(`virFileDeleteTree` is a no-op on NULL). -/
def createErrorCleanup (vm : VMCore) (t : Trace) : VMCore × Trace :=
  let t := match vm.fcProcess with
    | some pid => t.ev (.abortProc pid)
    | none => t
  let t := match vm.vmDir with
    | some d => t.ev (.deleteTree d)
    | none => t
  ({ vm with id := -1 }, t)

/-- fc_driver.c `fcRecreateVMDir` (`fcDeleteVMDir` then `fcCreateVMDir`);
the two steps' host outcomes are folded into one `recreateDirOk` flag. -/
def fcRecreateVMDir (denv : DrvEnv) (t : Trace) (dir : String) :
    Int × Trace :=
  if denv.recreateDirOk then (0, (t.ev (.deleteTree dir)).ev (.makeDir dir))
  else (-1, t.ev (.deleteTree dir))

/-- fc_driver.c `fcDomainCreateWithFlags` (= `virDomainCreate`): reject an
already-active guest, derive the workspace paths, recreate the workspace,
launch the firecracker process, configure and boot it, and only then mark
the guest RUNNING.  Any failure goes through the shared `error:` label. -/
def fcDomainCreateWithFlags (denv : DrvEnv) (stateDir : String)
    (t : Trace) (vm : VMCore) : Int × VMCore × Trace :=
  if vm.id ≠ -1 then  -- virDomainObjIsActive
    let p := createErrorCleanup vm (t.err .alreadyRunning)
    (-1, p.1, p.2)
  else
    let vm := fcPopulatePrivateData stateDir vm
    let dir := vm.vmDir.getD ""
    let r0 := fcRecreateVMDir denv t dir
    if r0.1 < 0 then
      let p := createErrorCleanup vm (r0.2.err .dirRecreateFailed)
      (-1, p.1, p.2)
    else
      let r1 := fcStartVMProcess denv r0.2 vm
      if r1.1 < 0 then
        let p := createErrorCleanup r1.2.1 r1.2.2
        (-1, p.1, p.2)
      else
        let vm := r1.2.1
        let r2 := fcConfigAndStartVM denv.mon r1.2.2 vm
        if r2.1 < 0 then
          let p := createErrorCleanup vm (r2.2.err .failedVMStart)
          (-1, p.1, p.2)
        else
          (0, { vm with state := .running }, r2.2)

/-- fc_driver.c `fcDomainShutdownFlags`: refresh the state (tolerating a
failed refresh only when the previously cached state was SHUTOFF), demand
RUNNING, send the shutdown action, reap the child and best-effort remove
the control socket.  The `!vm->persistent` list removal is registry
bookkeeping outside the modelled core. -/
def fcDomainShutdownFlags (denv : DrvEnv) (t : Trace) (vm : VMCore) :
    Int × VMCore × Trace :=
  let vmState := vm.state
  let r := fcUpdateState denv.mon t vm
  let vm1 := r.2.1
  let t1 := r.2.2
  if r.1 < 0 ∧ vmState ≠ .shutoff then
    (-1, vm1, t1.err .failedRefresh)
  else if vm1.state ≠ .running then
    (-1, vm1, t1.err .notRunning)
  else
    let r2 := fcStopVM denv.mon t1 vm1
    if r2.1 < 0 then (-1, r2.2.1, r2.2.2)
    else
      let vm2 := r2.2.1
      let t2 := (r2.2.2).ev .reapProc
      if ¬ denv.waitOk then
        (-1, vm2, t2.err .waitReapFailed)
      else
        (0, { vm2 with fcProcess := none },
         t2.ev (.removeFile vm2.sock))

/-- fc_driver.c `fcDomainSuspend`: refresh, demand RUNNING, PATCH the vm
to Paused, then cache PAUSED. -/
def fcDomainSuspend (env : MonEnv) (t : Trace) (vm : VMCore) :
    Int × VMCore × Trace :=
  let r := fcUpdateState env t vm
  let vm1 := r.2.1
  let t1 := r.2.2
  if r.1 < 0 then (-1, vm1, t1.err .failedRefresh)
  else if vm1.state ≠ .running then (-1, vm1, t1.err .notRunning)
  else
    let p := virFCMonitorChangeState env t1 "Paused"
    if p.1 < 0 then (-1, vm1, p.2.err .apiSuspendFailed)
    else (0, { vm1 with state := .paused }, p.2)

/-- fc_driver.c `fcDomainResume`: refresh, demand PAUSED, PATCH the vm to
Resumed, then cache RUNNING. -/
def fcDomainResume (env : MonEnv) (t : Trace) (vm : VMCore) :
    Int × VMCore × Trace :=
  let r := fcUpdateState env t vm
  let vm1 := r.2.1
  let t1 := r.2.2
  if r.1 < 0 then (-1, vm1, t1.err .failedRefresh)
  else if vm1.state ≠ .paused then (-1, vm1, t1.err .notPaused)
  else
    let p := virFCMonitorChangeState env t1 "Resumed"
    if p.1 < 0 then (-1, vm1, p.2.err .apiResumeFailed)
    else (0, { vm1 with state := .running }, p.2)

/-- fc_driver.c `fcDomainOpenConsole`: demand an active guest, then demand
at least one console device (`vm->def->nconsoles < 1` fails), and only
then open the pty stream. -/
def fcDomainOpenConsole (denv : DrvEnv) (t : Trace) (vm : VMCore) :
    Int × Trace :=
  if vm.id = -1 then (-1, t.err .domainNotActive)
  else if vm.defn.nconsoles < 1 then (-1, t.err .noConsoleDevice)
  else
    let t := t.ev (.openPtyStream (vm.consolePty.getD ""))
    if ¬ denv.openPtyStreamOk then (-1, t) else (0, t)

/-! ## Status-query outcome table.
`fcGetStatusStateTable` restates, as a function of the response the
channel delivers, what one status query produces: the reported state and
the list of errors reported while producing it.  It is the specification
side for the refinement result about `virFCMonitorGetStatus`. -/

/-- Outcome of one status query given response code `c` and parsed body
`b`: transport failure (negative code) gives NOSTATE with a reported
error; a non-success code gives NOSTATE with no reported error; on a
success code the three recognized state strings map to RUNNING / PAUSED /
SHUTOFF with no error, and a malformed body, a missing or non-string
"state" key, or an unrecognized state string give NOSTATE with a reported
error. -/
def fcGetStatusStateTable (c : Int) (b : StatusBody) :
    VirDomainState × List VirErr :=
  if c < 0 then (.nostate, [.curlPerformFailed])
  else if ¬ isSuccessCode c then (.nostate, [])
  else
    match b with
    | .malformed => (.nostate, [.parseFailedJson])
    | .fields fs =>
      match getStringField fs "state" with
      | none => (.nostate, [.parseFailedStateKey])
      | some st =>
        if st = "Running" then (.running, [])
        else if st = "Paused" then (.paused, [])
        else if st = "Not started" then (.shutoff, [])
        else (.nostate, [.unknownStateValue])

/-- The state one status query yields when it is the `n`-th request of
the trace. -/
def statusOutcome (env : MonEnv) (n : Nat) : VirDomainState :=
  (fcGetStatusStateTable (env.code n) (env.statusBody n)).1

/-- The status GET request as recorded on the trace. -/
def statusReq : HttpRequest :=
  { verb := "GET", url := URL_ROOT ++ "/", body := [] }

/-- Shared characterization of `virFCMonitorCurlExec`. -/
theorem virFCMonitorCurlExec_eq (env : MonEnv) (t : Trace)
    (r : HttpRequest) :
    virFCMonitorCurlExec env t r =
      (if env.code t.reqs.length < 0 then -1 else env.code t.reqs.length,
       { reqs := t.reqs ++ [r]
         errs := t.errs ++
           (if env.code t.reqs.length < 0 then [.curlPerformFailed] else [])
         evs := t.evs }) := by
  unfold virFCMonitorCurlExec Trace.req Trace.err
  by_cases hc : env.code t.reqs.length < 0 <;> simp [hc]

/-- On a non-negative success code the status table is exactly
`fcInstanceInfoToDomainState`. -/
theorem fcGetStatusStateTable_success {c : Int} (hc : ¬ c < 0)
    (hs : isSuccessCode c = true) (b : StatusBody) :
    fcGetStatusStateTable c b = fcInstanceInfoToDomainState b := by
  unfold fcGetStatusStateTable fcInstanceInfoToDomainState
  rw [if_neg hc, if_neg (by simp [hs])]

/-- Shared characterization of `virFCMonitorGetStatus`: it appends exactly
the status GET to the request trace and its state and reported errors are
given by `fcGetStatusStateTable` at the response the channel delivers. -/
theorem virFCMonitorGetStatus_eq (env : MonEnv) (t : Trace) :
    virFCMonitorGetStatus env t =
      ((fcGetStatusStateTable (env.code t.reqs.length)
          (env.statusBody t.reqs.length)).1,
       { reqs := t.reqs ++ [statusReq]
         errs := t.errs ++ (fcGetStatusStateTable (env.code t.reqs.length)
            (env.statusBody t.reqs.length)).2
         evs := t.evs }) := by
  unfold virFCMonitorGetStatus
  rw [show ({ verb := "GET", url := URL_ROOT ++ "/", body := [] } :
        HttpRequest) = statusReq from rfl]
  rw [virFCMonitorCurlExec_eq]
  by_cases hc : env.code t.reqs.length < 0
  · simp [hc, isSuccessCode, fcGetStatusStateTable]
  · by_cases hs : isSuccessCode (env.code t.reqs.length) = true
    · rw [fcGetStatusStateTable_success hc hs]
      simp [hc, hs]
    · simp [hc, hs, fcGetStatusStateTable]

/-! ## Request abbreviations and per-operation characterizations -/

/-- The boot-source PUT built by `virFCMonitorSetKernel`. -/
def kernelReq (kernel_path kernel_cmdline : String) : HttpRequest :=
  { verb := "PUT", url := URL_ROOT ++ "/" ++ "boot-source"
    body := [("kernel_image_path", .s kernel_path),
             ("boot_args", .s kernel_cmdline)] }

/-- The drive PUT built by `virFCMonitorSetDisk`. -/
def driveReq (drive_id disk_path_host : String)
    (is_root_device is_read_only : Bool) : HttpRequest :=
  { verb := "PUT", url := URL_ROOT ++ "/" ++ ("/drives/" ++ drive_id)
    body := [("drive_id", .s drive_id),
             ("path_on_host", .s disk_path_host),
             ("is_root_device", .b is_root_device),
             ("is_read_only", .b is_read_only)] }

/-- The actions PUT built by `virFCMonitorStartVM` /
`virFCMonitorShutdownVM`. -/
def actionReq (action_type : String) : HttpRequest :=
  { verb := "PUT", url := URL_ROOT ++ "/" ++ "actions"
    body := [("action_type", .s action_type)] }

/-- The vm PATCH built by `virFCMonitorChangeState`. -/
def vmPatchReq (state : String) : HttpRequest :=
  { verb := "PATCH", url := URL_ROOT ++ "/" ++ "vm"
    body := [("state", .s state)] }

theorem isSuccessCode_neg {c : Int} (hc : c < 0) :
    isSuccessCode c = false := by
  unfold isSuccessCode
  simp [show c ≠ 200 by omega, show c ≠ 204 by omega]

theorem virFCJsonActionExec_eq (env : MonEnv) (t : Trace)
    (ep act : String) (body : List (String × JVal)) :
    virFCJsonActionExec env t ep act body =
      (if env.code t.reqs.length < 0 then -1 else env.code t.reqs.length,
       { reqs := t.reqs ++ [⟨act, URL_ROOT ++ "/" ++ ep, body⟩]
         errs := t.errs ++
           (if env.code t.reqs.length < 0 then [.curlPerformFailed] else [])
         evs := t.evs }) := by
  unfold virFCJsonActionExec
  rw [virFCMonitorCurlExec_eq]

theorem virFCMonitorSetKernel_eq (env : MonEnv) (t : Trace)
    (k c : String) :
    virFCMonitorSetKernel env t k c =
      (if isSuccessCode (env.code t.reqs.length) then 0 else -1,
       { reqs := t.reqs ++ [kernelReq k c]
         errs := t.errs ++
           (if env.code t.reqs.length < 0 then [.curlPerformFailed] else [])
         evs := t.evs }) := by
  unfold virFCMonitorSetKernel kernelReq
  rw [virFCJsonActionExec_eq]
  by_cases hc : env.code t.reqs.length < 0
  · simp [hc, isSuccessCode, show env.code t.reqs.length ≠ 200 by omega,
      show env.code t.reqs.length ≠ 204 by omega]
  · simp [hc]

theorem virFCMonitorSetDisk_eq (env : MonEnv) (t : Trace)
    (id p : String) (ir iro : Bool) :
    virFCMonitorSetDisk env t id p ir iro =
      (if isSuccessCode (env.code t.reqs.length) then 0 else -1,
       { reqs := t.reqs ++ [driveReq id p ir iro]
         errs := t.errs ++
           (if env.code t.reqs.length < 0 then [.curlPerformFailed] else [])
         evs := t.evs }) := by
  unfold virFCMonitorSetDisk driveReq
  rw [virFCJsonActionExec_eq]
  by_cases hc : env.code t.reqs.length < 0
  · simp [hc, isSuccessCode, show env.code t.reqs.length ≠ 200 by omega,
      show env.code t.reqs.length ≠ 204 by omega]
  · simp [hc]

theorem virFCMonitorStartVM_eq (env : MonEnv) (t : Trace) :
    virFCMonitorStartVM env t =
      (if isSuccessCode (env.code t.reqs.length) then 0 else -1,
       { reqs := t.reqs ++ [actionReq "InstanceStart"]
         errs := t.errs ++
           (if env.code t.reqs.length < 0 then [.curlPerformFailed] else [])
         evs := t.evs }) := by
  unfold virFCMonitorStartVM actionReq
  rw [virFCJsonActionExec_eq]
  by_cases hc : env.code t.reqs.length < 0
  · simp [hc, isSuccessCode, show env.code t.reqs.length ≠ 200 by omega,
      show env.code t.reqs.length ≠ 204 by omega]
  · simp [hc]

theorem virFCMonitorShutdownVM_eq (env : MonEnv) (t : Trace) :
    virFCMonitorShutdownVM env t =
      (if isSuccessCode (env.code t.reqs.length) then 0 else -1,
       { reqs := t.reqs ++ [actionReq "SendCtrlAltDel"]
         errs := t.errs ++
           (if env.code t.reqs.length < 0 then [.curlPerformFailed] else [])
         evs := t.evs }) := by
  unfold virFCMonitorShutdownVM actionReq
  rw [virFCJsonActionExec_eq]
  by_cases hc : env.code t.reqs.length < 0
  · simp [hc, isSuccessCode, show env.code t.reqs.length ≠ 200 by omega,
      show env.code t.reqs.length ≠ 204 by omega]
  · simp [hc]

theorem virFCMonitorChangeState_valid_eq (env : MonEnv) (t : Trace)
    (st : String) (h : st = "Paused" ∨ st = "Resumed") :
    virFCMonitorChangeState env t st =
      (if isSuccessCode (env.code t.reqs.length) then 0 else -1,
       { reqs := t.reqs ++ [vmPatchReq st]
         errs := t.errs ++
           (if env.code t.reqs.length < 0 then [.curlPerformFailed] else [])
         evs := t.evs }) := by
  unfold virFCMonitorChangeState vmPatchReq
  rw [if_neg (by rcases h with h | h <;> simp [h])]
  rw [virFCJsonActionExec_eq]
  by_cases hc : env.code t.reqs.length < 0
  · simp [hc, isSuccessCode, show env.code t.reqs.length ≠ 200 by omega,
      show env.code t.reqs.length ≠ 204 by omega]
  · simp [hc]

/-- The trace after one (arbitrary-outcome) status query. -/
def refreshTrace (env : MonEnv) (t : Trace) : Trace :=
  { reqs := t.reqs ++ [statusReq]
    errs := t.errs ++ (fcGetStatusStateTable (env.code t.reqs.length)
      (env.statusBody t.reqs.length)).2
    evs := t.evs }

/-- Characterization of `fcUpdateState`: the cached state is always
overwritten with the query outcome; failure is reported exactly on
NOSTATE. -/
theorem fcUpdateState_eq (env : MonEnv) (t : Trace) (vm : VMCore) :
    fcUpdateState env t vm =
      ((if statusOutcome env t.reqs.length = .nostate then -1 else 0),
       { vm with state := statusOutcome env t.reqs.length },
       refreshTrace env t) := by
  unfold fcUpdateState statusOutcome refreshTrace
  rw [virFCMonitorGetStatus_eq]

/-! ## Concrete fixtures -/

/-- The spec's concrete scenario definition: one root disk `vda`, one pty
serial on port 0, no network interfaces. -/
def d1 : DomainDef :=
  { name := "d1"
    emulator := some "firecracker"
    kernel := "/k"
    cmdline := "panic=1"
    root := some "vda"
    memKiB := 131072
    maxvcpus := 1
    disks := [{ dst := "vda", srcPath := "/img.ext4" }]
    serials := [{ deviceType := .serial, sourceType := .pty,
                  targetPort := 0 }]
    nconsoles := 0
    nparallels := 0
    nchannels := 0 }

/-- A channel that accepts everything and reports a Running guest. -/
def envOk : MonEnv :=
  { code := fun _ => 204
    statusBody := fun _ => .fields [("state", .s "Running")] }

/-- An unreachable channel: every request fails at the curl level. -/
def envDead : MonEnv :=
  { code := fun _ => -1, statusBody := fun _ => .malformed }

/-- A reachable channel that answers 400 to everything. -/
def env400 : MonEnv :=
  { code := fun _ => 400, statusBody := fun _ => .fields [] }

/-- All host-side steps succeed. -/
def denvOk : DrvEnv :=
  { mon := envOk, recreateDirOk := true, openErrLogOk := true
    openStdLogOk := true, openptyOk := true, ptyPath := "/dev/pts/3"
    runAsyncOk := true, spawnedPid := 1234, socketAppears := true
    updatePermOk := true, waitOk := true, openPtyStreamOk := true }

/-- All host-side steps succeed but the channel is unreachable. -/
def denvDead : DrvEnv := { denvOk with mon := envDead }

/-- A freshly defined (inactive) guest for a definition. -/
def vm0 (d : DomainDef) : VMCore :=
  { defn := d, state := .shutoff, id := -1, persistent := true
    vmDir := none, socketpath := none, consolePty := none
    fcProcess := none }

/-- A guest that has been started and is cached RUNNING. -/
def vmRun : VMCore :=
  { defn := d1, state := .running, id := 1234, persistent := true
    vmDir := some "/var/lib/fc/d1"
    socketpath := some "/var/lib/fc/d1/firecracker-lv.socket"
    consolePty := some "/dev/pts/3", fcProcess := some 1234 }

/-- A guest whose cached state is SHUTOFF. -/
def vmShut : VMCore := { vmRun with state := .shutoff, id := -1 }

/-- A channel that accepts every command, reports Running to the first
status query and Paused to later ones (the remote honouring a pause). -/
def envSR : MonEnv :=
  { code := fun _ => 204
    statusBody := fun n =>
      .fields [("state", .s (if n == 0 then "Running" else "Paused"))] }

/-! ## Further shared lemmas -/

theorem isSuccessCode_iff {c : Int} :
    isSuccessCode c = true ↔ (c = 200 ∨ c = 204) := by
  unfold isSuccessCode
  simp

theorem isSuccessCode_nonneg {c : Int} (h : isSuccessCode c = true) :
    ¬ c < 0 := by
  rcases isSuccessCode_iff.mp h with h | h <;> omega

theorem Trace.req_reqs (t : Trace) (r : HttpRequest) :
    (t.req r).reqs = t.reqs ++ [r] := rfl

theorem Trace.err_reqs (t : Trace) (e : VirErr) :
    (t.err e).reqs = t.reqs := rfl

theorem Trace.ev_reqs (t : Trace) (e : SysEv) :
    (t.ev e).reqs = t.reqs := rfl

theorem virFCMonitorSetKernel_reqs (env : MonEnv) (t : Trace)
    (k c : String) :
    (virFCMonitorSetKernel env t k c).2.reqs = t.reqs ++ [kernelReq k c] :=
  by rw [virFCMonitorSetKernel_eq]

theorem virFCMonitorSetDisk_reqs (env : MonEnv) (t : Trace)
    (id p : String) (ir iro : Bool) :
    (virFCMonitorSetDisk env t id p ir iro).2.reqs =
      t.reqs ++ [driveReq id p ir iro] :=
  by rw [virFCMonitorSetDisk_eq]

theorem virFCMonitorStartVM_reqs (env : MonEnv) (t : Trace) :
    (virFCMonitorStartVM env t).2.reqs =
      t.reqs ++ [actionReq "InstanceStart"] :=
  by rw [virFCMonitorStartVM_eq]

/-- Wherever `fcConfigAndStartVM` gives up, the first request it has
issued is the boot-source PUT carrying the computed command line. -/
theorem fcConfigAndStartVM_first_req (env : MonEnv) (t : Trace)
    (vm : VMCore) :
    ∃ rest, (fcConfigAndStartVM env t vm).2.reqs =
      t.reqs ++ kernelReq vm.defn.kernel
        (fcAddAdditionalCmdlineArgs vm.defn) :: rest := by
  simp only [fcConfigAndStartVM]
  split
  · exact ⟨[], by
      simp [Trace.err_reqs, virFCMonitorSetKernel_reqs]⟩
  · split
    · exact ⟨[], by
        simp [Trace.err_reqs, virFCMonitorSetKernel_reqs]⟩
    · rename_i root_device _
      split
      · exact ⟨[driveReq "rootfs" root_device.srcPath true false], by
          simp [Trace.err_reqs, virFCMonitorSetDisk_reqs,
            virFCMonitorSetKernel_reqs]⟩
      · split
        · exact ⟨[driveReq "rootfs" root_device.srcPath true false,
            actionReq "InstanceStart"], by
            simp [Trace.err_reqs, virFCMonitorStartVM_reqs,
              virFCMonitorSetDisk_reqs, virFCMonitorSetKernel_reqs]⟩
        · exact ⟨[driveReq "rootfs" root_device.srcPath true false,
            actionReq "InstanceStart"], by
            simp [virFCMonitorStartVM_reqs, virFCMonitorSetDisk_reqs,
              virFCMonitorSetKernel_reqs]⟩

/-! ## Claim theorems -/

/-- C1 (divergence witness at the spec's concrete scenario): starting the
guest `d1` — one root disk, one pty serial, no network interfaces — with
every host step and every remote call succeeding issues exactly THREE
control-plane requests, namely boot-source (with command line
"panic=1 console=ttyS0"), the drive PUT for "rootfs" and the
InstanceStart action, in that order, and then reaches RUNNING.  No
machine-config request and no network-interface request is ever issued,
contradicting the claimed machine-config → boot-source → disk → network →
start sequence (the functions `virFCMonitorSetConfig` and
`virFCMonitorSetNetwork` exist but have no caller). -/
theorem claim1_start_d1_call_trace :
    (fcDomainCreateWithFlags denvOk "/var/lib/fc" Trace.empty
        (vm0 d1)).1 = 0 ∧
    (fcDomainCreateWithFlags denvOk "/var/lib/fc" Trace.empty
        (vm0 d1)).2.1.state = .running ∧
    (fcDomainCreateWithFlags denvOk "/var/lib/fc" Trace.empty
        (vm0 d1)).2.2.reqs =
      [kernelReq "/k" "panic=1 console=ttyS0",
       driveReq "rootfs" "/img.ext4" true false,
       actionReq "InstanceStart"] := by
  refine ⟨by decide, by decide, by decide⟩

/-- C5 counterexample: a reachable channel that answers 400 to the status
query makes `virFCMonitorGetStatus` return NOSTATE while reporting NO
error, contradicting "a non-success response code yields NOSTATE together
with a reported error". -/
theorem claim5_counterexample_code400 :
    (virFCMonitorGetStatus env400 Trace.empty).1 = .nostate ∧
    (virFCMonitorGetStatus env400 Trace.empty).2.errs = [] := by
  decide

/-- C5 (amended): "Running"/"Paused"/"Not started" map to
RUNNING/PAUSED/SHUTOFF with no error and never NOSTATE; an unreachable
channel, a malformed response, a missing state key or an unrecognized
state string yield NOSTATE with a reported error; a non-success response
code yields NOSTATE with no reported error. -/
theorem claim5_status_mapping (env : MonEnv) (t : Trace) :
    (env.code t.reqs.length < 0 →
       (virFCMonitorGetStatus env t).1 = .nostate ∧
       (virFCMonitorGetStatus env t).2.errs =
         t.errs ++ [.curlPerformFailed]) ∧
    (¬ env.code t.reqs.length < 0 →
       isSuccessCode (env.code t.reqs.length) = false →
       (virFCMonitorGetStatus env t).1 = .nostate ∧
       (virFCMonitorGetStatus env t).2.errs = t.errs) ∧
    (isSuccessCode (env.code t.reqs.length) = true →
       env.statusBody t.reqs.length = .malformed →
       (virFCMonitorGetStatus env t).1 = .nostate ∧
       (virFCMonitorGetStatus env t).2.errs =
         t.errs ++ [.parseFailedJson]) ∧
    (∀ fs, isSuccessCode (env.code t.reqs.length) = true →
       env.statusBody t.reqs.length = .fields fs →
       getStringField fs "state" = none →
       (virFCMonitorGetStatus env t).1 = .nostate ∧
       (virFCMonitorGetStatus env t).2.errs =
         t.errs ++ [.parseFailedStateKey]) ∧
    (∀ fs, isSuccessCode (env.code t.reqs.length) = true →
       env.statusBody t.reqs.length = .fields fs →
       ((getStringField fs "state" = some "Running" →
           (virFCMonitorGetStatus env t).1 = .running ∧
           (virFCMonitorGetStatus env t).2.errs = t.errs) ∧
        (getStringField fs "state" = some "Paused" →
           (virFCMonitorGetStatus env t).1 = .paused ∧
           (virFCMonitorGetStatus env t).2.errs = t.errs) ∧
        (getStringField fs "state" = some "Not started" →
           (virFCMonitorGetStatus env t).1 = .shutoff ∧
           (virFCMonitorGetStatus env t).2.errs = t.errs))) ∧
    (∀ fs st, isSuccessCode (env.code t.reqs.length) = true →
       env.statusBody t.reqs.length = .fields fs →
       getStringField fs "state" = some st →
       st ≠ "Running" → st ≠ "Paused" → st ≠ "Not started" →
       (virFCMonitorGetStatus env t).1 = .nostate ∧
       (virFCMonitorGetStatus env t).2.errs =
         t.errs ++ [.unknownStateValue]) := by
  rw [virFCMonitorGetStatus_eq]
  refine ⟨?_, ?_, ?_, ?_, ?_, ?_⟩
  · intro hc
    simp [fcGetStatusStateTable, hc]
  · intro hc hs
    simp [fcGetStatusStateTable, hc, hs]
  · intro hs hb
    simp [fcGetStatusStateTable, isSuccessCode_nonneg hs, hs, hb]
  · intro fs hs hb hf
    simp [fcGetStatusStateTable, isSuccessCode_nonneg hs, hs, hb, hf]
  · intro fs hs hb
    refine ⟨?_, ?_, ?_⟩ <;> intro hf <;>
      simp [fcGetStatusStateTable, isSuccessCode_nonneg hs, hs, hb, hf]
  · intro fs st hs hb hf h1 h2 h3
    simp [fcGetStatusStateTable, isSuccessCode_nonneg hs, hs, hb, hf,
      h1, h2, h3]

/-- C5 amended-claim witness: concrete instances of the transport-failure,
non-success-code and Running rows of the mapping. -/
theorem claim5_status_mapping_witness :
    ((virFCMonitorGetStatus envDead Trace.empty).1 = .nostate ∧
     (virFCMonitorGetStatus envDead Trace.empty).2.errs =
       Trace.empty.errs ++ [.curlPerformFailed]) ∧
    ((virFCMonitorGetStatus env400 Trace.empty).1 = .nostate ∧
     (virFCMonitorGetStatus env400 Trace.empty).2.errs =
       Trace.empty.errs) ∧
    ((virFCMonitorGetStatus envOk Trace.empty).1 = .running ∧
     (virFCMonitorGetStatus envOk Trace.empty).2.errs =
       Trace.empty.errs) :=
  ⟨(claim5_status_mapping envDead Trace.empty).1 (by decide),
   (claim5_status_mapping env400 Trace.empty).2.1 (by decide) (by decide),
   ((claim5_status_mapping envOk Trace.empty).2.2.2.2.1
      [("state", .s "Running")] (by decide) (by decide)).1 (by decide)⟩

/-- C6: any target other than exactly "Paused" or "Resumed" fails with the
local invalid-argument error before any request is issued; for the two
valid targets the vm PATCH is sent and the call succeeds iff the response
code is 200 or 204. -/
theorem claim6_setRunState_guard (env : MonEnv) (t : Trace)
    (st : String) :
    (st ≠ "Paused" → st ≠ "Resumed" →
       virFCMonitorChangeState env t st = (-1, t.err .invalidStateArg)) ∧
    (st = "Paused" ∨ st = "Resumed" →
       (virFCMonitorChangeState env t st).2.reqs =
         t.reqs ++ [vmPatchReq st] ∧
       ((virFCMonitorChangeState env t st).1 = 0 ↔
          (env.code t.reqs.length = 200 ∨
           env.code t.reqs.length = 204))) := by
  constructor
  · intro h1 h2
    unfold virFCMonitorChangeState
    rw [if_pos ⟨h1, h2⟩]
  · intro h
    rw [virFCMonitorChangeState_valid_eq env t st h]
    refine ⟨rfl, ?_⟩
    rw [← isSuccessCode_iff]
    by_cases hs : isSuccessCode (env.code t.reqs.length) <;> simp [hs]

/-- C6 witness: "paused" (wrong case) is rejected locally with no request
issued; "Paused" is sent and succeeds against an accepting channel. -/
theorem claim6_setRunState_guard_witness :
    (virFCMonitorChangeState envOk Trace.empty "paused" =
       (-1, Trace.empty.err .invalidStateArg)) ∧
    ((virFCMonitorChangeState envOk Trace.empty "Paused").2.reqs =
       Trace.empty.reqs ++ [vmPatchReq "Paused"] ∧
     ((virFCMonitorChangeState envOk Trace.empty "Paused").1 = 0 ↔
        (envOk.code 0 = 200 ∨ envOk.code 0 = 204))) :=
  ⟨(claim6_setRunState_guard envOk Trace.empty "paused").1
     (by decide) (by decide),
   (claim6_setRunState_guard envOk Trace.empty "Paused").2 (Or.inl rfl)⟩

/-- C7: the boot-source request always carries the definition's command
line with " console=ttyS<port>" appended precisely when a serial device is
configured (port = the serial device's target port); with no serial device
the command line goes out unmodified. -/
theorem claim7_cmdline_augmentation (env : MonEnv) (t : Trace)
    (vm : VMCore) :
    (∃ rest, (fcConfigAndStartVM env t vm).2.reqs =
       t.reqs ++ kernelReq vm.defn.kernel
         (fcAddAdditionalCmdlineArgs vm.defn) :: rest) ∧
    (∀ s rest, vm.defn.serials = s :: rest →
       fcAddAdditionalCmdlineArgs vm.defn =
         vm.defn.cmdline ++ " console=ttyS" ++ toString s.targetPort) ∧
    (vm.defn.serials = [] →
       fcAddAdditionalCmdlineArgs vm.defn = vm.defn.cmdline) := by
  refine ⟨fcConfigAndStartVM_first_req env t vm, ?_, ?_⟩
  · intro s rest h
    unfold fcAddAdditionalCmdlineArgs
    rw [h]
  · intro h
    unfold fcAddAdditionalCmdlineArgs
    rw [h]

/-- C7 witness: for `d1` (one pty serial on port 0) the computed command
line is the definition's one with " console=ttyS0" appended. -/
theorem claim7_cmdline_augmentation_witness :
    fcAddAdditionalCmdlineArgs d1 =
      d1.cmdline ++ " console=ttyS" ++ toString (0 : Int) :=
  (claim7_cmdline_augmentation envOk Trace.empty (vm0 d1)).2.1
    { deviceType := .serial, sourceType := .pty, targetPort := 0 } []
    (by decide)

/-- C10: whenever the status refresh fails, the cached lifecycle state has
already been overwritten with NOSTATE by the time the failure is
returned; the cached state after a refresh is always the query outcome,
never the previously cached value. -/
theorem claim10_refresh_overwrites (env : MonEnv) (t : Trace)
    (vm : VMCore) :
    ((fcUpdateState env t vm).1 = -1 →
       (fcUpdateState env t vm).2.1.state = .nostate) ∧
    (fcUpdateState env t vm).2.1.state = statusOutcome env t.reqs.length := by
  rw [fcUpdateState_eq]
  constructor
  · intro h
    by_cases hs : statusOutcome env t.reqs.length = .nostate
    · simp [hs]
    · simp [hs] at h
  · rfl

/-- C10 witness: against an unreachable channel the refresh of a guest
cached RUNNING fails and leaves the cache at NOSTATE. -/
theorem claim10_refresh_overwrites_witness :
    (fcUpdateState envDead Trace.empty vmRun).1 = -1 ∧
    (fcUpdateState envDead Trace.empty vmRun).2.1.state = .nostate :=
  ⟨by decide,
   (claim10_refresh_overwrites envDead Trace.empty vmRun).1 (by decide)⟩

/-- C2 counterexample: a guest cached SHUTOFF whose refresh fails (dead
channel) still has its shutdown call FAIL — with the not-running guard
error — so shutdown of an already-shut-off guest is an error,
contradicting the claim. -/
theorem claim2_counterexample_shutoff_still_errors :
    (fcDomainShutdownFlags denvDead Trace.empty vmShut).1 = -1 ∧
    (fcDomainShutdownFlags denvDead Trace.empty vmShut).2.2.errs =
      [.curlPerformFailed, .notRunning] := by
  decide

/-- C2 (amended): during shutdown a failed refresh is tolerated (no
refresh-failure error) exactly when the cached state was SHUTOFF, but the
operation still fails with the not-running guard error because the
refreshed state is NOSTATE; for any other cached state the failed refresh
aborts the operation with the refresh-failure error.  Either way no
shutdown action is sent (the trace gains only the status query). -/
theorem claim2_shutdown_refresh_tolerance (denv : DrvEnv) (t : Trace)
    (vm : VMCore)
    (hfail : statusOutcome denv.mon t.reqs.length = .nostate) :
    (vm.state = .shutoff →
       fcDomainShutdownFlags denv t vm =
         (-1, { vm with state := .nostate },
          (refreshTrace denv.mon t).err .notRunning)) ∧
    (vm.state ≠ .shutoff →
       fcDomainShutdownFlags denv t vm =
         (-1, { vm with state := .nostate },
          (refreshTrace denv.mon t).err .failedRefresh)) := by
  constructor <;> intro hs <;>
  · simp only [fcDomainShutdownFlags]
    rw [fcUpdateState_eq, hfail]
    simp [hs]

/-- C2 amended-claim witness: both branches at concrete guests against a
dead channel. -/
theorem claim2_shutdown_refresh_tolerance_witness :
    (fcDomainShutdownFlags denvDead Trace.empty vmShut =
       (-1, { vmShut with state := .nostate },
        (refreshTrace envDead Trace.empty).err .notRunning)) ∧
    (fcDomainShutdownFlags denvDead Trace.empty vmRun =
       (-1, { vmRun with state := .nostate },
        (refreshTrace envDead Trace.empty).err .failedRefresh)) :=
  ⟨(claim2_shutdown_refresh_tolerance denvDead Trace.empty vmShut
      (by decide)).1 (by decide),
   (claim2_shutdown_refresh_tolerance denvDead Trace.empty vmRun
      (by decide)).2 (by decide)⟩

/-- Successful suspend: refresh says RUNNING, the Paused PATCH is
accepted, the cache moves to PAUSED. -/
theorem fcDomainSuspend_ok (env : MonEnv) (t : Trace) (vm : VMCore)
    (h1 : statusOutcome env t.reqs.length = .running)
    (h2 : isSuccessCode (env.code (t.reqs.length + 1)) = true) :
    fcDomainSuspend env t vm =
      (0, { vm with state := .paused },
       (refreshTrace env t).req (vmPatchReq "Paused")) := by
  simp only [fcDomainSuspend]
  rw [fcUpdateState_eq, h1]
  rw [virFCMonitorChangeState_valid_eq env _ _ (Or.inl rfl)]
  have hlen : (refreshTrace env t).reqs.length = t.reqs.length + 1 := by
    simp [refreshTrace]
  rw [hlen]
  simp [h2, isSuccessCode_nonneg h2, Trace.req]

/-- Successful resume: refresh says PAUSED, the Resumed PATCH is
accepted, the cache moves to RUNNING. -/
theorem fcDomainResume_ok (env : MonEnv) (t : Trace) (vm : VMCore)
    (h1 : statusOutcome env t.reqs.length = .paused)
    (h2 : isSuccessCode (env.code (t.reqs.length + 1)) = true) :
    fcDomainResume env t vm =
      (0, { vm with state := .running },
       (refreshTrace env t).req (vmPatchReq "Resumed")) := by
  simp only [fcDomainResume]
  rw [fcUpdateState_eq, h1]
  rw [virFCMonitorChangeState_valid_eq env _ _ (Or.inr rfl)]
  have hlen : (refreshTrace env t).reqs.length = t.reqs.length + 1 := by
    simp [refreshTrace]
  rw [hlen]
  simp [h2, isSuccessCode_nonneg h2, Trace.req]

/-- Resume against a refresh that reports any real state other than
PAUSED: fails with the not-paused error, no PATCH is sent, the cache
stays at the refreshed value. -/
theorem fcDomainResume_notPaused (env : MonEnv) (t : Trace) (vm : VMCore)
    (st : VirDomainState)
    (hst : statusOutcome env t.reqs.length = st)
    (hp : st ≠ .paused) (hn : st ≠ .nostate) :
    fcDomainResume env t vm =
      (-1, { vm with state := st },
       (refreshTrace env t).err .notPaused) := by
  simp only [fcDomainResume]
  rw [fcUpdateState_eq, hst]
  simp [hp, hn]

/-- C8: from a guest whose refresh reports RUNNING, suspend moves the
cache to PAUSED, and a subsequent resume whose refresh reports PAUSED
moves it back to RUNNING — a round trip; and resume after a refresh that
reports any state other than PAUSED fails with the not-paused error
without issuing the run-state PATCH, leaving the cache at the refreshed
value. -/
theorem claim8_suspend_resume_roundtrip (env : MonEnv) (t : Trace)
    (vm : VMCore)
    (h1 : statusOutcome env t.reqs.length = .running)
    (h2 : isSuccessCode (env.code (t.reqs.length + 1)) = true)
    (h3 : statusOutcome env (t.reqs.length + 2) = .paused)
    (h4 : isSuccessCode (env.code (t.reqs.length + 3)) = true) :
    (fcDomainSuspend env t vm).1 = 0 ∧
    (fcDomainSuspend env t vm).2.1.state = .paused ∧
    (fcDomainResume env (fcDomainSuspend env t vm).2.2
        (fcDomainSuspend env t vm).2.1).1 = 0 ∧
    (fcDomainResume env (fcDomainSuspend env t vm).2.2
        (fcDomainSuspend env t vm).2.1).2.1.state = .running ∧
    (∀ (t' : Trace) (vm' : VMCore) (st : VirDomainState),
       statusOutcome env t'.reqs.length = st →
       st ≠ .paused → st ≠ .nostate →
       fcDomainResume env t' vm' =
         (-1, { vm' with state := st },
          (refreshTrace env t').err .notPaused)) := by
  rw [fcDomainSuspend_ok env t vm h1 h2]
  have hlen : (((refreshTrace env t).req (vmPatchReq "Paused")).reqs.length)
      = t.reqs.length + 2 := by
    simp [refreshTrace, Trace.req]
  rw [fcDomainResume_ok env _ _ (by rw [hlen]; exact h3)
    (by rw [hlen]; exact h4)]
  exact ⟨rfl, rfl, rfl, rfl,
    fun t' vm' st hst hp hn => fcDomainResume_notPaused env t' vm' st hst hp hn⟩

/-- The launch steps of `fcStartVMProcess` up to and including the spawn:
stderr log open, pty or stdout log open (depending on a serial device
being present), and `virCommandRunAsync`. -/
def launchStepsOk (denv : DrvEnv) (d : DomainDef) : Bool :=
  denv.openErrLogOk &&
    (if 0 < d.serials.length then denv.openptyOk else denv.openStdLogOk) &&
    denv.runAsyncOk

/-- `fcStartVMProcess` when every step succeeds: the guest becomes active
(`def->id` = pid), the pty is recorded iff a serial device exists, and a
failed permission fix is only logged. -/
theorem fcStartVMProcess_ok (denv : DrvEnv) (t : Trace) (vm : VMCore)
    (hl : launchStepsOk denv vm.defn = true)
    (hs : denv.socketAppears = true) :
    fcStartVMProcess denv t vm =
      (0,
       { vm with
           id := denv.spawnedPid,
           consolePty := (if 0 < vm.defn.serials.length
             then some denv.ptyPath else none),
           fcProcess := some denv.spawnedPid },
       if denv.updatePermOk then t.ev (.launched denv.spawnedPid)
       else (t.ev (.launched denv.spawnedPid)).err .permFixFailed) := by
  unfold launchStepsOk at hl
  simp only [Bool.and_eq_true] at hl
  obtain ⟨⟨h1, h2⟩, h3⟩ := hl
  simp only [fcStartVMProcess]
  by_cases hser : 0 < vm.defn.serials.length
  · rw [if_pos hser] at h2
    simp only [h1, h2, h3, hs, hser]
    by_cases hp : denv.updatePermOk <;> simp [hp]
  · rw [if_neg hser] at h2
    simp only [h1, h2, h3, hs, hser]
    by_cases hp : denv.updatePermOk <;> simp [hp]

/-- `fcStartVMProcess` when the control socket never appears: the spawned
child is aborted, `def->id` is cleared and the handle dropped. -/
theorem fcStartVMProcess_sockFail (denv : DrvEnv) (t : Trace)
    (vm : VMCore)
    (hl : launchStepsOk denv vm.defn = true)
    (hs : denv.socketAppears = false) :
    fcStartVMProcess denv t vm =
      (-1,
       { vm with
           id := -1,
           consolePty := (if 0 < vm.defn.serials.length
             then some denv.ptyPath else none),
           fcProcess := none },
       ((t.ev (.launched denv.spawnedPid)).err .socketNotFound).ev
         (.abortProc denv.spawnedPid)) := by
  unfold launchStepsOk at hl
  simp only [Bool.and_eq_true] at hl
  obtain ⟨⟨h1, h2⟩, h3⟩ := hl
  simp only [fcStartVMProcess]
  by_cases hser : 0 < vm.defn.serials.length
  · rw [if_pos hser] at h2
    simp [h1, h2, h3, hs, hser]
  · rw [if_neg hser] at h2
    simp [h1, h2, h3, hs, hser]

/-- `fcConfigAndStartVM` when the boot-source call is accepted but no disk
matches the declared root: fails reporting the missing root disk, after
having sent only the boot-source request. -/
theorem fcConfigAndStartVM_rootMissing (env : MonEnv) (t : Trace)
    (vm : VMCore)
    (hroot : getRootFSDiskDevice vm.defn = none)
    (hcode : isSuccessCode (env.code t.reqs.length) = true) :
    fcConfigAndStartVM env t vm =
      (-1, (t.req (kernelReq vm.defn.kernel
         (fcAddAdditionalCmdlineArgs vm.defn))).err .rootDiskMissingStart) := by
  simp only [fcConfigAndStartVM]
  rw [virFCMonitorSetKernel_eq]
  simp [hroot, hcode, isSuccessCode_nonneg hcode, Trace.req, Trace.err]

/-- `fcDomainCreateWithFlags` on an inactive guest whose workspace
recreation and launch steps succeed and whose control socket appears:
everything reduces to the outcome of `fcConfigAndStartVM`, with the
shared error label aborting the child and deleting the workspace on
failure. -/
theorem fcDomainCreateWithFlags_launched_eq (denv : DrvEnv)
    (stateDir : String) (t : Trace) (vm : VMCore)
    (hid : vm.id = -1) (hdir : denv.recreateDirOk = true)
    (hl : launchStepsOk denv vm.defn = true)
    (hs : denv.socketAppears = true) :
    fcDomainCreateWithFlags denv stateDir t vm =
      (let dir := stateDir ++ "/" ++ vm.defn.name
       let vm2 : VMCore :=
         { fcPopulatePrivateData stateDir vm with
             id := denv.spawnedPid,
             consolePty := (if 0 < (fcPopulatePrivateData stateDir
               vm).defn.serials.length then some denv.ptyPath else none),
             fcProcess := some denv.spawnedPid }
       let t1 := (t.ev (.deleteTree dir)).ev (.makeDir dir)
       let t2 := if denv.updatePermOk
         then t1.ev (.launched denv.spawnedPid)
         else (t1.ev (.launched denv.spawnedPid)).err .permFixFailed
       let r2 := fcConfigAndStartVM denv.mon t2 vm2
       if r2.1 < 0 then
         (-1, { vm2 with id := -1 },
          ((r2.2.err .failedVMStart).ev (.abortProc denv.spawnedPid)).ev
            (.deleteTree dir))
       else (0, { vm2 with state := .running }, r2.2)) := by
  have hvmdir : (fcPopulatePrivateData stateDir vm).vmDir =
      some (stateDir ++ "/" ++ vm.defn.name) := rfl
  simp only [fcDomainCreateWithFlags]
  rw [if_neg (by simp [hid])]
  simp only [hvmdir, Option.getD_some]
  simp only [fcRecreateVMDir, hdir, if_true]
  rw [if_neg (by norm_num : ¬ (0 : Int) < 0)]
  rw [fcStartVMProcess_ok denv _ (fcPopulatePrivateData stateDir vm)
    (show launchStepsOk denv (fcPopulatePrivateData stateDir vm).defn =
      true from hl) hs]
  dsimp only
  rw [if_neg (by norm_num : ¬ (0 : Int) < 0)]
  simp only [createErrorCleanup, hvmdir]

/-- `fcDomainCreateWithFlags` on an inactive guest whose workspace
recreation and launch steps succeed but whose control socket never
appears: the child is aborted and the workspace deleted, the guest stays
inactive. -/
theorem fcDomainCreateWithFlags_sockFail_eq (denv : DrvEnv)
    (stateDir : String) (t : Trace) (vm : VMCore)
    (hid : vm.id = -1) (hdir : denv.recreateDirOk = true)
    (hl : launchStepsOk denv vm.defn = true)
    (hs : denv.socketAppears = false) :
    fcDomainCreateWithFlags denv stateDir t vm =
      (let dir := stateDir ++ "/" ++ vm.defn.name
       (-1,
        { fcPopulatePrivateData stateDir vm with
            id := -1,
            consolePty := (if 0 < (fcPopulatePrivateData stateDir
              vm).defn.serials.length then some denv.ptyPath else none),
            fcProcess := none },
        (((((t.ev (.deleteTree dir)).ev (.makeDir dir)).ev
            (.launched denv.spawnedPid)).err .socketNotFound).ev
              (.abortProc denv.spawnedPid)).ev (.deleteTree dir))) := by
  have hvmdir : (fcPopulatePrivateData stateDir vm).vmDir =
      some (stateDir ++ "/" ++ vm.defn.name) := rfl
  simp only [fcDomainCreateWithFlags]
  rw [if_neg (by simp [hid])]
  simp only [hvmdir, Option.getD_some]
  simp only [fcRecreateVMDir, hdir, if_true]
  rw [if_neg (by norm_num : ¬ (0 : Int) < 0)]
  rw [fcStartVMProcess_sockFail denv _ (fcPopulatePrivateData stateDir vm)
    (show launchStepsOk denv (fcPopulatePrivateData stateDir vm).defn =
      true from hl) hs]
  dsimp only
  rw [if_pos (by norm_num : (-1 : Int) < 0)]
  simp only [createErrorCleanup, hvmdir]

/-- Post-parse device checks accept only unchanged definitions with no
console device. -/
theorem virFCDomainDefPostParseChecks_ok (d d' : DomainDef)
    (h : virFCDomainDefPostParseChecks d = .ok d') :
    d' = d ∧ d.nconsoles = 0 := by
  unfold virFCDomainDefPostParseChecks at h
  split_ifs at h with h1 h2 h3 h4 h5 h6 <;>
    first
      | (simp at h ; done)
      | (rcases hs : d.serials with _ | ⟨s, rest⟩ <;> rw [hs] at h <;>
          dsimp only at h <;> (try split_ifs at h) <;>
          exact ⟨(by simpa using h.symm), by omega⟩)

/-- A definition accepted by the post-parse callback has no console
device. -/
theorem postParse_ok_nconsoles (fp : Option String) (d d' : DomainDef)
    (h : virFCDomainDefPostParseBasic fp d = .ok d') :
    d'.nconsoles = 0 := by
  unfold virFCDomainDefPostParseBasic at h
  by_cases hn : (d.name.data.any fun c => c == '\n') = true
  · rw [if_pos hn] at h
    simp at h
  · rw [if_neg hn] at h
    rcases he : d.emulator with _ | e <;> rw [he] at h <;> dsimp only at h
    · rcases hf : fp with _ | p <;> rw [hf] at h <;> dsimp only at h
      · simp at h
      · obtain ⟨h1, h2⟩ := virFCDomainDefPostParseChecks_ok _ _ h
        rw [h1]
        exact h2
    · obtain ⟨h1, h2⟩ := virFCDomainDefPostParseChecks_ok _ _ h
      rw [h1]
      exact h2

/-- C8 witness: a concrete channel that reports Running, accepts the
pause, then reports Paused and accepts the resume; plus the guard at a
refresh reporting RUNNING. -/
theorem claim8_suspend_resume_roundtrip_witness :
    (fcDomainSuspend envSR Trace.empty vmRun).1 = 0 ∧
    (fcDomainSuspend envSR Trace.empty vmRun).2.1.state = .paused ∧
    (fcDomainResume envSR (fcDomainSuspend envSR Trace.empty vmRun).2.2
        (fcDomainSuspend envSR Trace.empty vmRun).2.1).2.1.state =
      .running ∧
    fcDomainResume envSR Trace.empty vmShut =
      (-1, { vmShut with state := .running },
       (refreshTrace envSR Trace.empty).err .notPaused) :=
  ⟨(claim8_suspend_resume_roundtrip envSR Trace.empty vmRun
      (by decide) (by decide) (by decide) (by decide)).1,
   (claim8_suspend_resume_roundtrip envSR Trace.empty vmRun
      (by decide) (by decide) (by decide) (by decide)).2.1,
   (claim8_suspend_resume_roundtrip envSR Trace.empty vmRun
      (by decide) (by decide) (by decide) (by decide)).2.2.2.1,
   (claim8_suspend_resume_roundtrip envSR Trace.empty vmRun
      (by decide) (by decide) (by decide) (by decide)).2.2.2.2
     Trace.empty vmShut .running (by decide) (by decide) (by decide)⟩


/-- A definition like `d1` whose declared root names no disk. -/
def dNoRoot : DomainDef :=
  { d1 with disks := [{ dst := "vdb", srcPath := "/img.ext4" }] }

/-- All host steps succeed but the control socket never appears. -/
def denvSockFail : DrvEnv := { denvOk with socketAppears := false }

/-- C3: when no disk's target equals the declared root name (or the root
name is unset), start fails reporting the missing root disk and leaves
the cached lifecycle state unchanged; and the root-disk lookup returns a
disk exactly when one matches the declared root name, that disk's target
being the root name. -/
theorem claim3_root_disk_missing (denv : DrvEnv) (stateDir : String)
    (t : Trace) (vm : VMCore)
    (hid : vm.id = -1) (hdir : denv.recreateDirOk = true)
    (hl : launchStepsOk denv vm.defn = true)
    (hs : denv.socketAppears = true)
    (hcode : isSuccessCode (denv.mon.code t.reqs.length) = true)
    (hroot : getRootFSDiskDevice vm.defn = none) :
    ((fcDomainCreateWithFlags denv stateDir t vm).1 = -1 ∧
     (fcDomainCreateWithFlags denv stateDir t vm).2.1.state = vm.state ∧
     VirErr.rootDiskMissingStart ∈
       (fcDomainCreateWithFlags denv stateDir t vm).2.2.errs) ∧
    (∀ d : DomainDef, d.root = none → getRootFSDiskDevice d = none) ∧
    (∀ (d : DomainDef) (dd : DiskDef), getRootFSDiskDevice d = some dd →
       d.root = some dd.dst) ∧
    (∀ (d : DomainDef) (r : String), d.root = some r →
       (∀ dd ∈ d.disks, dd.dst ≠ r) → getRootFSDiskDevice d = none) ∧
    (∀ (d : DomainDef) (r : String), d.root = some r →
       (∃ dd ∈ d.disks, dd.dst = r) →
       ∃ dd, getRootFSDiskDevice d = some dd ∧ dd.dst = r) := by
  refine ⟨?_, ?_, ?_, ?_, ?_⟩
  · rw [fcDomainCreateWithFlags_launched_eq denv stateDir t vm
      hid hdir hl hs]
    dsimp only
    by_cases hperm : denv.updatePermOk = true
    · rw [hperm, if_pos rfl]
      rw [fcConfigAndStartVM_rootMissing denv.mon
        (((t.ev (.deleteTree (stateDir ++ "/" ++ vm.defn.name))).ev
          (.makeDir (stateDir ++ "/" ++ vm.defn.name))).ev
          (.launched denv.spawnedPid))
        ({ defn := (fcPopulatePrivateData stateDir vm).defn,
           state := (fcPopulatePrivateData stateDir vm).state,
           id := denv.spawnedPid,
           persistent := (fcPopulatePrivateData stateDir vm).persistent,
           vmDir := (fcPopulatePrivateData stateDir vm).vmDir,
           socketpath := (fcPopulatePrivateData stateDir vm).socketpath,
           consolePty := (if 0 < (fcPopulatePrivateData stateDir
             vm).defn.serials.length then some denv.ptyPath else none),
           fcProcess := some denv.spawnedPid } : VMCore) hroot hcode]
      dsimp only
      rw [if_pos (by norm_num : (-1 : Int) < 0)]
      refine ⟨rfl, rfl, ?_⟩
      simp [Trace.ev, Trace.err, Trace.req]
    · rw [if_neg hperm]
      rw [fcConfigAndStartVM_rootMissing denv.mon
        ((((t.ev (.deleteTree (stateDir ++ "/" ++ vm.defn.name))).ev
          (.makeDir (stateDir ++ "/" ++ vm.defn.name))).ev
          (.launched denv.spawnedPid)).err .permFixFailed)
        ({ defn := (fcPopulatePrivateData stateDir vm).defn,
           state := (fcPopulatePrivateData stateDir vm).state,
           id := denv.spawnedPid,
           persistent := (fcPopulatePrivateData stateDir vm).persistent,
           vmDir := (fcPopulatePrivateData stateDir vm).vmDir,
           socketpath := (fcPopulatePrivateData stateDir vm).socketpath,
           consolePty := (if 0 < (fcPopulatePrivateData stateDir
             vm).defn.serials.length then some denv.ptyPath else none),
           fcProcess := some denv.spawnedPid } : VMCore) hroot hcode]
      dsimp only
      rw [if_pos (by norm_num : (-1 : Int) < 0)]
      refine ⟨rfl, rfl, ?_⟩
      simp [Trace.ev, Trace.err, Trace.req]
  · intro d h
    unfold getRootFSDiskDevice
    rw [h]
  · intro d dd h
    unfold getRootFSDiskDevice at h
    rcases hr : d.root with _ | r
    · rw [hr] at h
      cases h
    · rw [hr] at h
      have := List.find?_some h
      simp at this
      simp [hr, this]
  · intro d r hr hnone
    unfold getRootFSDiskDevice
    rw [hr]
    rw [List.find?_eq_none]
    intro dd hdd
    simp [hnone dd hdd]
  · intro d r hr ⟨dd, hdd, hdst⟩
    unfold getRootFSDiskDevice
    rw [hr]
    have hsome : (d.disks.find? fun disk => disk.dst == r).isSome := by
      rw [List.find?_isSome]
      exact ⟨dd, hdd, by simp [hdst]⟩
    obtain ⟨dd', hdd'⟩ := Option.isSome_iff_exists.mp hsome
    refine ⟨dd', hdd', ?_⟩
    have := List.find?_some hdd'
    simpa using this

/-- C3 witness: a concrete definition whose only disk is `vdb` while the
declared root is `vda`. -/
theorem claim3_root_disk_missing_witness :
    (fcDomainCreateWithFlags denvOk "/var/lib/fc" Trace.empty
        (vm0 dNoRoot)).1 = -1 ∧
    (fcDomainCreateWithFlags denvOk "/var/lib/fc" Trace.empty
        (vm0 dNoRoot)).2.1.state = (vm0 dNoRoot).state ∧
    VirErr.rootDiskMissingStart ∈
      (fcDomainCreateWithFlags denvOk "/var/lib/fc" Trace.empty
        (vm0 dNoRoot)).2.2.errs :=
  (claim3_root_disk_missing denvOk "/var/lib/fc" Trace.empty (vm0 dNoRoot)
    (by decide) (by decide) (by decide) (by decide) (by decide)
    (by decide)).1

/-- C4: whenever start fails after the child process was launched (the
workspace recreation and all launch steps succeeded), the operation has
aborted the launched process and deleted the workspace directory before
returning, the guest id is back at the inactive sentinel, and the cached
lifecycle state is unchanged — in particular never newly RUNNING. -/
theorem claim4_start_failure_cleanup (denv : DrvEnv) (stateDir : String)
    (t : Trace) (vm : VMCore)
    (hid : vm.id = -1) (hdir : denv.recreateDirOk = true)
    (hl : launchStepsOk denv vm.defn = true)
    (hfail : (fcDomainCreateWithFlags denv stateDir t vm).1 = -1) :
    (fcDomainCreateWithFlags denv stateDir t vm).2.1.id = -1 ∧
    (fcDomainCreateWithFlags denv stateDir t vm).2.1.state = vm.state ∧
    SysEv.abortProc denv.spawnedPid ∈
      (fcDomainCreateWithFlags denv stateDir t vm).2.2.evs ∧
    SysEv.deleteTree (stateDir ++ "/" ++ vm.defn.name) ∈
      (fcDomainCreateWithFlags denv stateDir t vm).2.2.evs ∧
    (vm.state ≠ .running →
      (fcDomainCreateWithFlags denv stateDir t vm).2.1.state ≠ .running) := by
  by_cases hs : denv.socketAppears = true
  · rw [fcDomainCreateWithFlags_launched_eq denv stateDir t vm
      hid hdir hl hs] at hfail ⊢
    dsimp only at hfail ⊢
    by_cases hr2 : (fcConfigAndStartVM denv.mon
        (if denv.updatePermOk = true then
          (((t.ev (.deleteTree (stateDir ++ "/" ++ vm.defn.name))).ev
            (.makeDir (stateDir ++ "/" ++ vm.defn.name))).ev
              (.launched denv.spawnedPid))
         else
          ((((t.ev (.deleteTree (stateDir ++ "/" ++ vm.defn.name))).ev
            (.makeDir (stateDir ++ "/" ++ vm.defn.name))).ev
              (.launched denv.spawnedPid)).err .permFixFailed))
        { fcPopulatePrivateData stateDir vm with
            id := denv.spawnedPid,
            consolePty := (if 0 < (fcPopulatePrivateData stateDir
              vm).defn.serials.length then some denv.ptyPath else none),
            fcProcess := some denv.spawnedPid }).1 < 0
    · rw [if_pos hr2] at hfail ⊢
      refine ⟨rfl, rfl, ?_, ?_, fun h => h⟩
      · simp [Trace.ev, Trace.err]
      · simp [Trace.ev, Trace.err]
    · rw [if_neg hr2] at hfail
      simp at hfail
  · have hs' : denv.socketAppears = false := by
      revert hs
      cases denv.socketAppears <;> simp
    rw [fcDomainCreateWithFlags_sockFail_eq denv stateDir t vm
      hid hdir hl hs']
    dsimp only
    refine ⟨rfl, rfl, ?_, ?_, fun h => h⟩
    · simp [Trace.ev, Trace.err]
    · simp [Trace.ev, Trace.err]

/-- C4 witness: a start whose control socket never appears fails, aborts
the spawned child, deletes the workspace and leaves the guest inactive
and not RUNNING. -/
theorem claim4_start_failure_cleanup_witness :
    ((fcDomainCreateWithFlags denvSockFail "/var/lib/fc" Trace.empty
        (vm0 d1)).1 = -1) ∧
    (fcDomainCreateWithFlags denvSockFail "/var/lib/fc" Trace.empty
        (vm0 d1)).2.1.id = -1 ∧
    SysEv.abortProc 1234 ∈
      (fcDomainCreateWithFlags denvSockFail "/var/lib/fc" Trace.empty
        (vm0 d1)).2.2.evs ∧
    SysEv.deleteTree "/var/lib/fc/d1" ∈
      (fcDomainCreateWithFlags denvSockFail "/var/lib/fc" Trace.empty
        (vm0 d1)).2.2.evs ∧
    (fcDomainCreateWithFlags denvSockFail "/var/lib/fc" Trace.empty
        (vm0 d1)).2.1.state ≠ .running :=
  ⟨by decide,
   (claim4_start_failure_cleanup denvSockFail "/var/lib/fc" Trace.empty
      (vm0 d1) (by decide) (by decide) (by decide) (by decide)).1,
   (claim4_start_failure_cleanup denvSockFail "/var/lib/fc" Trace.empty
      (vm0 d1) (by decide) (by decide) (by decide) (by decide)).2.2.1,
   (claim4_start_failure_cleanup denvSockFail "/var/lib/fc" Trace.empty
      (vm0 d1) (by decide) (by decide) (by decide) (by decide)).2.2.2.1,
   (claim4_start_failure_cleanup denvSockFail "/var/lib/fc" Trace.empty
      (vm0 d1) (by decide) (by decide) (by decide) (by decide)).2.2.2.2
     (by decide)⟩

/-- C9: every definition the post-parse validator accepts has zero
console devices, so the open-console guard (`nconsoles < 1`) always
fails with the operation-invalid error — even for an active guest with a
pty serial console — and the pty stream is never opened (the returned
trace gains no event). -/
theorem claim9_openConsole_always_fails (fp : Option String)
    (d d' : DomainDef)
    (hpp : virFCDomainDefPostParseBasic fp d = .ok d')
    (denv : DrvEnv) (t : Trace) (vm : VMCore)
    (hdef : vm.defn = d') (hactive : vm.id ≠ -1) :
    fcDomainOpenConsole denv t vm = (-1, t.err .noConsoleDevice) := by
  have h0 : d'.nconsoles = 0 := postParse_ok_nconsoles fp d d' hpp
  unfold fcDomainOpenConsole
  rw [if_neg hactive]
  rw [if_pos (by rw [hdef, h0] ; norm_num)]

/-- C9 witness: `d1` (pty serial, active guest with a recorded pty path)
passes post-parse validation yet its open-console call fails with the
operation-invalid error. -/
theorem claim9_openConsole_always_fails_witness :
    virFCDomainDefPostParseBasic (some "firecracker") d1 = .ok d1 ∧
    vmRun.id ≠ -1 ∧
    fcDomainOpenConsole denvOk Trace.empty vmRun =
      (-1, Trace.empty.err .noConsoleDevice) :=
  ⟨by rfl, by decide,
   claim9_openConsole_always_fails (some "firecracker") d1 d1 (by rfl)
     denvOk Trace.empty vmRun rfl (by decide)⟩

end FC
